import Mathlib

/-!
Shallow embedding of the TaskBD theater-management core.

The embedding covers the business logic of `controller.py`
(`TheaterController.calculate_contract_cost`,
`TheaterController.calculate_performance_result`, `TheaterController.skip_year`)
and the database mutators of `data.py` it calls
(`update_performance_budget`, `complete_performance`, `award_actor`,
`upgrade_actor_rank`, `update_game_data`, `delete_plot`,
`get_actors_in_performance`).

Modelling conventions:
* The PostgreSQL database is a record of lists (`DBState`), one list per table.
  Row order inside a list is the order in which the relevant query returns rows
  (for `get_actors_in_performance` the source orders by `contract_cost DESC`;
  no theorem below depends on a particular order, so the order is left
  abstract).
* Money and the float arithmetic of the controller are modelled over `ℚ`
  (the numeric columns are SQL `INTEGER`/`BIGINT`, the controller mixes them
  with float factors such as `0.7 + 0.08 * demand`).
* Python's `int(x)` truncates toward zero: `pyInt`.
* `random.uniform(a, b)` is `a + (b - a) * u` for a unit draw `u ∈ [0,1)`
  supplied by the caller; one settlement consumes three draws in source order
  (`Draws.u1` for the unexpected expenses, `Draws.u2` for `fate_roll`,
  `Draws.u3` for the outcome multiplier).
* `required_ranks` reaches the settlement as a typed list: the column is a
  PostgreSQL `actor_rank[]`, and the ad-hoc string parsing of
  controller.py lines 222-226 only undoes the array-literal encoding.
* Python's `sorted(..., reverse=True)` is a stable sort; any stable sort with
  the same comparator returns the same list, so it is modelled with Mathlib's
  stable `List.insertionSort` on the descending key relation.
-/

namespace TaskBD

/-- Enumeration `ActorRank` of data.py: the six actor ranks, in hierarchy
order Начинающий < Постоянный < Ведущий < Мастер < Заслуженный < Народный. -/
inductive ActorRank
  | beginner
  | regular
  | lead
  | master
  | honored
  | people
deriving DecidableEq

/-- The list `rank_order` used throughout controller.py. -/
def rank_order : List ActorRank :=
  [.beginner, .regular, .lead, .master, .honored, .people]

/-- Position of a rank in `rank_order` (the source's `rank_order.index(rank)`;
the agreement with `List.indexOf` is proved in `rankIndex_eq_indexOf`). -/
def rankIndex : ActorRank → ℕ
  | .beginner => 0
  | .regular => 1
  | .lead => 2
  | .master => 3
  | .honored => 4
  | .people => 5

/-- Row of the `actors` table. -/
structure Actor where
  actor_id : ℕ
  rank : ActorRank
  awards_count : ℕ
  experience : ℕ
deriving DecidableEq

/-- Row of the `plots` table. -/
structure Plot where
  plot_id : ℕ
  minimum_budget : ℚ
  production_cost : ℚ
  roles_count : ℕ
  demand : ℚ
  required_ranks : List ActorRank
deriving DecidableEq

/-- Row of the `performances` table. -/
structure Performance where
  performance_id : ℕ
  plot_id : ℕ
  year : ℤ
  budget : ℚ
  is_completed : Bool
  revenue : ℚ
deriving DecidableEq

/-- Row of the `actor_performances` table (a cast assignment). -/
structure CastAssignment where
  actor_id : ℕ
  performance_id : ℕ
  contract_cost : ℚ
deriving DecidableEq

/-- Row returned by `get_actors_in_performance`: actor columns joined with the
assignment's `contract_cost`. -/
structure CastRow where
  actor_id : ℕ
  rank : ActorRank
  awards_count : ℕ
  experience : ℕ
  contract_cost : ℚ
deriving DecidableEq

/-- The singleton `game_data` row. -/
structure GameData where
  current_year : ℤ
  capital : ℚ
deriving DecidableEq

/-- The whole database. -/
structure DBState where
  actors : List Actor
  plots : List Plot
  performances : List Performance
  actor_performances : List CastAssignment
  game : GameData
deriving DecidableEq

/-- The three unit random draws consumed by one settlement, in source order. -/
structure Draws where
  u1 : ℚ
  u2 : ℚ
  u3 : ℚ
deriving DecidableEq

/-- Python's `random.uniform(a, b)`: `a + (b - a) * random()`. -/
def uniform (a b u : ℚ) : ℚ := a + (b - a) * u

/-- Python's `int(x)` conversion: truncation toward zero. -/
def pyInt (q : ℚ) : ℤ := if 0 ≤ q then ⌊q⌋ else ⌈q⌉

/-- Embedding of `DatabaseManager.get_actors_in_performance`: inner join of
`actors` and `actor_performances` restricted to one performance. -/
def get_actors_in_performance (st : DBState) (pid : ℕ) : List CastRow :=
  (st.actor_performances.filter (fun c => c.performance_id == pid)).filterMap
    (fun c =>
      (st.actors.find? (fun a => a.actor_id == c.actor_id)).map
        (fun a => ⟨a.actor_id, a.rank, a.awards_count, a.experience, c.contract_cost⟩))

/-- Embedding of `DatabaseManager.update_performance_budget`. -/
def update_performance_budget (st : DBState) (pid : ℕ) (budget : ℚ) : DBState :=
  { st with
    performances := st.performances.map (fun p =>
      if p.performance_id == pid then { p with budget := budget } else p) }

/-- Embedding of `DatabaseManager.complete_performance`: sets the revenue and
the completion flag, and gives one experience point to every actor having an
assignment in this performance (each matching actor row is updated once,
which is PostgreSQL's `UPDATE ... FROM` semantics). -/
def complete_performance (st : DBState) (pid : ℕ) (revenue : ℚ) : DBState :=
  { st with
    performances := st.performances.map (fun p =>
      if p.performance_id == pid then { p with revenue := revenue, is_completed := true } else p),
    actors := st.actors.map (fun a =>
      if st.actor_performances.any (fun c => c.actor_id == a.actor_id && c.performance_id == pid)
      then { a with experience := a.experience + 1 } else a) }

/-- Embedding of `DatabaseManager.update_game_data`. -/
def update_game_data (st : DBState) (year : ℤ) (capital : ℚ) : DBState :=
  { st with game := { current_year := year, capital := capital } }

/-- Embedding of `DatabaseManager.award_actor`. -/
def award_actor (st : DBState) (aid : ℕ) : DBState :=
  { st with
    actors := st.actors.map (fun a =>
      if a.actor_id == aid then { a with awards_count := a.awards_count + 1 } else a) }

/-- Embedding of `DatabaseManager.upgrade_actor_rank`: reads the current rank
of the actor (`actor_id` is the primary key of `actors`, so the first match is
the row) and raises it one step when it is not already the highest one. -/
def upgrade_actor_rank (st : DBState) (aid : ℕ) : DBState :=
  match st.actors.find? (fun a => a.actor_id == aid) with
  | none => st
  | some a =>
    let rank_idx := rankIndex a.rank
    if rank_idx < rank_order.length - 1 then
      { st with
        actors := st.actors.map (fun b =>
          if b.actor_id == aid then { b with rank := rank_order.getD (rank_idx + 1) .people }
          else b) }
    else st

/-- Embedding of `DatabaseManager.delete_plot`: refuses when any performance
references the plot, then refuses when at most 5 plots exist, otherwise
deletes the row. -/
def delete_plot (st : DBState) (pid : ℕ) : (Bool × String) × DBState :=
  if 0 < (st.performances.filter (fun p => p.plot_id == pid)).length then
    ((false, "Сюжет используется в спектаклях и не может быть удален"), st)
  else if st.plots.length ≤ 5 then
    ((false, "Минимальное число сюжетов - 5"), st)
  else
    ((true, ""), { st with plots := st.plots.filter (fun p => !(p.plot_id == pid)) })

/-- Cost breakdown returned by `calculate_contract_cost`. -/
structure ContractCost where
  contract : ℚ
  premium : ℚ
  total : ℚ
deriving DecidableEq

/-- Embedding of `TheaterController.calculate_contract_cost`. -/
def calculate_contract_cost (actor : Actor) : ContractCost :=
  let base_cost : ℚ := 30000
  let rank_bonus : ℚ := (rankIndex actor.rank : ℚ) * 10000
  let experience_bonus : ℚ := (actor.experience : ℚ) * 2000
  let awards_bonus : ℚ := (actor.awards_count : ℚ) * 5000
  let contract_cost := base_cost + rank_bonus + experience_bonus + awards_bonus
  { contract := contract_cost
    premium := contract_cost / 5
    total := contract_cost + contract_cost / 5 }

/-- Running total of controller.py lines 202-204: production cost plus the
contract cost of every cast row. -/
def total_spent (plot : Plot) (actors : List CastRow) : ℚ :=
  actors.foldl (fun acc a => acc + a.contract_cost) plot.production_cost

/-- Controller line 207: `min(performance.budget, total_spent)`. -/
def actual_budget (performance : Performance) (plot : Plot) (actors : List CastRow) : ℚ :=
  min performance.budget (total_spent plot actors)

/-- Controller line 208. -/
def saved_budget (performance : Performance) (plot : Plot) (actors : List CastRow) : ℚ :=
  performance.budget - actual_budget performance plot actors

/-- Controller line 211. -/
def base_revenue (performance : Performance) (plot : Plot) (actors : List CastRow) : ℚ :=
  actual_budget performance plot actors * (7/10 + (2/25) * plot.demand)

/-- Controller line 214: `int(actual_budget * random.uniform(0.05, 0.15))`. -/
def unexpected_expenses (performance : Performance) (plot : Plot) (actors : List CastRow)
    (u1 : ℚ) : ℤ :=
  pyInt (actual_budget performance plot actors * uniform (1/20) (3/20) u1)

/-- Inner loop of controller lines 230-240: walk the cast and role
requirements in parallel and stop at the first actor below the required
rank. -/
def matchLoop : List CastRow → List ActorRank → Bool
  | _, [] => true
  | [], _ => true
  | a :: as, r :: rs =>
    if rankIndex a.rank < rankIndex r then false else matchLoop as rs

/-- Controller lines 217-240: the `actors_match_requirements` flag. -/
def actors_match_requirements (actors : List CastRow) (required_ranks : List ActorRank) : Bool :=
  if required_ranks.isEmpty then true else matchLoop actors required_ranks

/-- Controller lines 245-253: the contribution of one cast row to the bonus. -/
def actor_contribution (a : CastRow) : ℚ :=
  a.contract_cost * (1 + (rankIndex a.rank : ℚ) * (3/20))
    * (1 + (a.awards_count : ℚ) * (1/20) + (a.experience : ℚ) * (1/100))

/-- Controller lines 243-254: running sum of the contributions. -/
def actors_bonus (actors : List CastRow) : ℚ :=
  actors.foldl (fun acc a => acc + actor_contribution a) 0

/-- Controller line 260: the failure threshold. -/
def fail_chance (compliant : Bool) : ℚ := if compliant then 2/5 else 3/5

/-- Controller lines 263-274: outcome multiplier from the fate roll `u2` and
the multiplier draw `u3`. -/
def random_factor (compliant : Bool) (u2 u3 : ℚ) : ℚ :=
  if u2 < fail_chance compliant then
    if compliant then uniform (2/5) (7/10) u3 else uniform (3/10) (1/2) u3
  else if u2 < 9/10 then uniform (7/10) 1 u3
  else uniform 1 (7/5) u3

/-- Controller line 277: `int((base_revenue + actors_bonus) * random_factor)`. -/
def total_revenue (performance : Performance) (plot : Plot) (actors : List CastRow)
    (compliant : Bool) (u2 u3 : ℚ) : ℤ :=
  pyInt ((base_revenue performance plot actors + actors_bonus actors)
    * random_factor compliant u2 u3)

/-- Sort key of controller lines 296-300. -/
def pyKey (a : CastRow) : ℕ × ℕ × ℕ := (rankIndex a.rank, a.experience, a.awards_count)

/-- Lexicographic order on the sort key (Python tuple comparison). -/
def keyLe (x y : ℕ × ℕ × ℕ) : Prop :=
  x.1 < y.1 ∨ (x.1 = y.1 ∧ (x.2.1 < y.2.1 ∨ (x.2.1 = y.2.1 ∧ x.2.2 ≤ y.2.2)))

instance : DecidableRel keyLe := fun x y => by
  unfold keyLe
  exact inferInstance

/-- Descending comparison used by `sorted(..., reverse=True)`: `a` may come
before `b` exactly when the key of `b` is at most the key of `a`. -/
def castDesc (a b : CastRow) : Prop := keyLe (pyKey b) (pyKey a)

instance : DecidableRel castDesc := fun a b => by
  unfold castDesc
  exact inferInstance

/-- Controller lines 296-300: stable descending sort of the cast by
`(rank index, experience, awards count)`. -/
def sorted_cast (actors : List CastRow) : List CastRow :=
  actors.insertionSort castDesc

/-- One iteration of the award loop, controller lines 303-309: award the
actor, and promote it when it is the first one and the profit clears 30% of
the total expenses. -/
def awards_step (profit total_expenses : ℚ) (st : DBState) (ia : ℕ × CastRow) : DBState :=
  let st1 := award_actor st ia.2.actor_id
  if ia.1 = 0 ∧ total_expenses * (3/10) < profit then upgrade_actor_rank st1 ia.2.actor_id
  else st1

/-- The award loop as a fold over the enumerated top of the sorted cast. -/
def awardFold (profit total_expenses : ℚ) (l : List (ℕ × CastRow)) (st : DBState) : DBState :=
  l.foldl (awards_step profit total_expenses) st

/-- Controller lines 294-309: run the award loop over the three best cast
rows and return the new state together with the awarded rows. -/
def award_successful_actors (st : DBState) (sorted_actors : List CastRow)
    (profit total_expenses : ℚ) : DBState × List CastRow :=
  (awardFold profit total_expenses ((sorted_actors.take 3).enum) st, sorted_actors.take 3)

/-- The dictionary returned by a successful `calculate_performance_result`. -/
structure SettleResult where
  revenue : ℤ
  budget : ℚ
  original_budget : ℚ
  saved_budget : ℚ
  profit : ℚ
  awarded_actors : List CastRow
  unexpected_expenses : ℤ
deriving DecidableEq

/-- Controller line 280: `total_expenses = actual_budget + unexpected_expenses`. -/
def settle_total_expenses (performance : Performance) (plot : Plot) (actors : List CastRow)
    (u1 : ℚ) : ℚ :=
  actual_budget performance plot actors
    + ((unexpected_expenses performance plot actors u1 : ℤ) : ℚ)

/-- Controller line 281: `profit = total_revenue - total_expenses`. -/
def settle_profit_q (performance : Performance) (plot : Plot) (actors : List CastRow)
    (compliant : Bool) (u1 u2 u3 : ℚ) : ℚ :=
  ((total_revenue performance plot actors compliant u2 u3 : ℤ) : ℚ)
    - settle_total_expenses performance plot actors u1

/-- Controller lines 284-291: persist the expenses and the completion, then
advance the year and the capital.  `get_game_data` on line 288 reads the
`game_data` row, which the two performance updates left untouched. -/
def settle_mid_state (st : DBState) (pid : ℕ) (performance : Performance) (plot : Plot)
    (d : Draws) : DBState :=
  let actors := get_actors_in_performance st pid
  let compliant := actors_match_requirements actors plot.required_ranks
  let tRev := total_revenue performance plot actors compliant d.u2 d.u3
  let tExp := settle_total_expenses performance plot actors d.u1
  let st1 := update_performance_budget st pid tExp
  let st2 := complete_performance st1 pid (tRev : ℚ)
  update_game_data st2 (st2.game.current_year + 1)
    (st2.game.capital + (tRev : ℚ) + saved_budget performance plot actors
      - ((unexpected_expenses performance plot actors d.u1 : ℤ) : ℚ))

/-- Body of `calculate_performance_result` after the lookups succeeded
(controller lines 199-320): computes the settlement figures, persists them,
updates the game data and runs the award loop. -/
def settle (st : DBState) (pid : ℕ) (performance : Performance) (plot : Plot) (d : Draws) :
    SettleResult × DBState :=
  let actors := get_actors_in_performance st pid
  let sB := saved_budget performance plot actors
  let uE := unexpected_expenses performance plot actors d.u1
  let compliant := actors_match_requirements actors plot.required_ranks
  let tRev := total_revenue performance plot actors compliant d.u2 d.u3
  let tExp : ℚ := settle_total_expenses performance plot actors d.u1
  let profit : ℚ := settle_profit_q performance plot actors compliant d.u1 d.u2 d.u3
  let st3 := settle_mid_state st pid performance plot d
  let awarded :=
    if 0 < profit then award_successful_actors st3 (sorted_cast actors) profit tExp
    else (st3, [])
  ({ revenue := tRev
     budget := tExp
     original_budget := performance.budget
     saved_budget := sB
     profit := profit
     awarded_actors := awarded.2
     unexpected_expenses := uE },
   awarded.1)

/-- Embedding of `TheaterController.calculate_performance_result`.  The value
`none` models the uncaught `TypeError` the source raises when the plot lookup
of line 196 yields `None`; otherwise the Python pair `(False, message)` or
`(True, results)` is returned together with the database state. -/
def calculate_performance_result (st : DBState) (pid : ℕ) (d : Draws) :
    Option ((Except String SettleResult) × DBState) :=
  match st.performances.find? (fun p => p.performance_id == pid) with
  | none => some (.error "Спектакль не найден или уже завершен", st)
  | some performance =>
    if performance.is_completed then some (.error "Спектакль не найден или уже завершен", st)
    else
      match st.plots.find? (fun p => p.plot_id == performance.plot_id) with
      | none => none
      | some plot =>
        let r := settle st pid performance plot d
        some (.ok r.1, r.2)

/-- The dictionary returned by `skip_year`. -/
structure SkipYearResult where
  year : ℤ
  capital : ℚ
  rights_sale : ℤ
deriving DecidableEq

/-- Embedding of `TheaterController.skip_year`:
`rights_sale = int(capital * random.uniform(0.1, 0.2))`, then the year is
advanced and the capital increased. -/
def skip_year (st : DBState) (u : ℚ) : DBState × SkipYearResult :=
  let current_year := st.game.current_year
  let current_capital := st.game.capital
  let rights_sale := pyInt (current_capital * uniform (1/10) (1/5) u)
  let new_capital := current_capital + (rights_sale : ℚ)
  let new_year := current_year + 1
  (update_game_data st new_year new_capital,
   { year := new_year, capital := new_capital, rights_sale := rights_sale })

/-- Promotion map described by the spec: one step up, capped at the highest
rank; it mirrors the guarded indexing of `upgrade_actor_rank`. -/
def pyNextRank (r : ActorRank) : ActorRank :=
  if rankIndex r < rank_order.length - 1 then rank_order.getD (rankIndex r + 1) .people else r

/-- Example actors for concrete evaluations. -/
def exActors : List Actor :=
  [⟨1, .master, 2, 5⟩, ⟨2, .beginner, 0, 1⟩, ⟨3, .honored, 4, 10⟩]

/-- Example plot for concrete evaluations. -/
def exPlot : Plot := ⟨1, 100000, 350000, 3, 8, [.beginner, .beginner, .beginner]⟩

/-- Example pending performance. -/
def exPerf : Performance := ⟨1, 1, 2025, 600000, false, 0⟩

/-- Example cast assignments. -/
def exCast : List CastAssignment := [⟨1, 1, 80000⟩, ⟨2, 1, 50000⟩, ⟨3, 1, 120000⟩]

/-- Example database with one pending performance, fully cast. -/
def exState : DBState := ⟨exActors, [exPlot], [exPerf], exCast, ⟨2025, 1000000⟩⟩

/-- Example draws: all three unit draws at one half. -/
def exDraws : Draws := ⟨1/2, 1/2, 1/2⟩

/-- Example database with one unreferenced plot and no performances. -/
def exStateNoPerf : DBState := ⟨[], [exPlot], [], [], ⟨2025, 1000⟩⟩

/-! ### Basic lemmas about the numeric helpers -/

theorem rankIndex_eq_indexOf (r : ActorRank) : rankIndex r = rank_order.indexOf r := by
  cases r <;> rfl

theorem rankIndex_le_five (r : ActorRank) : rankIndex r ≤ 5 := by
  cases r <;> simp [rankIndex]

theorem pyInt_eq_floor {q : ℚ} (h : 0 ≤ q) : pyInt q = ⌊q⌋ := by
  simp [pyInt, h]

theorem uniform_mem {a b u : ℚ} (hab : a ≤ b) (h0 : 0 ≤ u) (h1 : u < 1) :
    a ≤ uniform a b u ∧ uniform a b u ≤ b := by
  constructor
  · have : 0 ≤ (b - a) * u := mul_nonneg (by linarith) h0
    simp only [uniform]
    linarith
  · have : (b - a) * u ≤ (b - a) * 1 := by
      apply mul_le_mul_of_nonneg_left (le_of_lt h1) (by linarith)
    simp only [uniform]
    linarith

theorem foldl_add_map {α : Type} (f : α → ℚ) :
    ∀ (l : List α) (init : ℚ), l.foldl (fun acc a => acc + f a) init = init + (l.map f).sum := by
  intro l
  induction l with
  | nil => intro init; simp
  | cons a l ih =>
    intro init
    simp only [List.foldl_cons, List.map_cons, List.sum_cons, ih]
    ring

theorem total_spent_eq (plot : Plot) (actors : List CastRow) :
    total_spent plot actors = plot.production_cost + (actors.map (fun a => a.contract_cost)).sum :=
  foldl_add_map _ actors plot.production_cost

theorem actors_bonus_eq (actors : List CastRow) :
    actors_bonus actors = (actors.map actor_contribution).sum := by
  simpa using foldl_add_map actor_contribution actors 0

theorem total_spent_nonneg {plot : Plot} {actors : List CastRow}
    (hp : 0 ≤ plot.production_cost) (hc : ∀ a ∈ actors, 0 ≤ a.contract_cost) :
    0 ≤ total_spent plot actors := by
  rw [total_spent_eq]
  have : 0 ≤ (actors.map (fun a => a.contract_cost)).sum := by
    apply List.sum_nonneg
    intro x hx
    obtain ⟨a, ha, rfl⟩ := List.mem_map.mp hx
    exact hc a ha
  linarith

theorem actual_budget_nonneg {performance : Performance} {plot : Plot} {actors : List CastRow}
    (hb : 0 ≤ performance.budget) (hp : 0 ≤ plot.production_cost)
    (hc : ∀ a ∈ actors, 0 ≤ a.contract_cost) :
    0 ≤ actual_budget performance plot actors :=
  le_min hb (total_spent_nonneg hp hc)

theorem actor_contribution_nonneg {a : CastRow} (h : 0 ≤ a.contract_cost) :
    0 ≤ actor_contribution a := by
  unfold actor_contribution
  have h1 : (0:ℚ) ≤ 1 + (rankIndex a.rank : ℚ) * (3/20) := by positivity
  have h2 : (0:ℚ) ≤ 1 + (a.awards_count : ℚ) * (1/20) + (a.experience : ℚ) * (1/100) := by
    positivity
  positivity

theorem actors_bonus_nonneg {actors : List CastRow}
    (hc : ∀ a ∈ actors, 0 ≤ a.contract_cost) : 0 ≤ actors_bonus actors := by
  rw [actors_bonus_eq]
  apply List.sum_nonneg
  intro x hx
  obtain ⟨a, ha, rfl⟩ := List.mem_map.mp hx
  exact actor_contribution_nonneg (hc a ha)

theorem base_revenue_nonneg {performance : Performance} {plot : Plot} {actors : List CastRow}
    (hb : 0 ≤ performance.budget) (hp : 0 ≤ plot.production_cost)
    (hc : ∀ a ∈ actors, 0 ≤ a.contract_cost) (hd : 0 ≤ plot.demand) :
    0 ≤ base_revenue performance plot actors := by
  unfold base_revenue
  have h1 := actual_budget_nonneg hb hp hc
  have h2 : (0:ℚ) ≤ 7/10 + (2/25) * plot.demand := by positivity
  positivity

theorem random_factor_nonneg {compliant : Bool} {u2 u3 : ℚ} (h0 : 0 ≤ u3) (h1 : u3 < 1) :
    0 ≤ random_factor compliant u2 u3 := by
  unfold random_factor
  rcases Classical.em (u2 < fail_chance compliant) with h | h
  · rw [if_pos h]
    cases compliant
    · have := (uniform_mem (by norm_num : (3:ℚ)/10 ≤ 1/2) h0 h1).1
      simpa using by linarith
    · have := (uniform_mem (by norm_num : (2:ℚ)/5 ≤ 7/10) h0 h1).1
      simpa using by linarith
  · rw [if_neg h]
    rcases Classical.em (u2 < 9/10) with h2 | h2
    · rw [if_pos h2]
      have := (uniform_mem (by norm_num : (7:ℚ)/10 ≤ 1) h0 h1).1
      linarith
    · rw [if_neg h2]
      have := (uniform_mem (by norm_num : (1:ℚ) ≤ 7/5) h0 h1).1
      linarith

/-! ### Compliance loop characterization -/

theorem matchLoop_eq_false_iff :
    ∀ (as : List CastRow) (rs : List ActorRank),
      matchLoop as rs = false ↔
        ∃ i, ∃ (h1 : i < as.length) (h2 : i < rs.length),
          rankIndex ((as.get ⟨i, h1⟩).rank) < rankIndex (rs.get ⟨i, h2⟩) := by
  intro as
  induction as with
  | nil =>
    intro rs
    cases rs <;> simp [matchLoop]
  | cons a as ih =>
    intro rs
    cases rs with
    | nil => simp [matchLoop]
    | cons r rs =>
      by_cases h : rankIndex a.rank < rankIndex r
      · simp only [matchLoop, if_pos h]
        constructor
        · intro _
          exact ⟨0, by simp, by simp, h⟩
        · intro _
          trivial
      · simp only [matchLoop, if_neg h]
        rw [ih rs]
        constructor
        · rintro ⟨i, h1, h2, hlt⟩
          exact ⟨i + 1, by simpa using Nat.succ_lt_succ h1, by simpa using Nat.succ_lt_succ h2,
            by simpa using hlt⟩
        · rintro ⟨i, h1, h2, hlt⟩
          cases i with
          | zero => exact absurd (by simpa using hlt) h
          | succ i =>
            exact ⟨i, by simpa using Nat.lt_of_succ_lt_succ h1,
              by simpa using Nat.lt_of_succ_lt_succ h2, by simpa using hlt⟩

theorem actors_match_requirements_eq_false_iff (actors : List CastRow)
    (required_ranks : List ActorRank) :
    actors_match_requirements actors required_ranks = false ↔
      ∃ i, ∃ (h1 : i < actors.length) (h2 : i < required_ranks.length),
        rankIndex ((actors.get ⟨i, h1⟩).rank) < rankIndex (required_ranks.get ⟨i, h2⟩) := by
  unfold actors_match_requirements
  by_cases h : required_ranks.isEmpty
  · rw [if_pos h]
    rw [List.isEmpty_iff] at h
    subst h
    simp
  · rw [if_neg h]
    exact matchLoop_eq_false_iff actors required_ranks

/-! ### Projection lemmas for the database mutators -/

theorem update_performance_budget_game (st : DBState) (pid : ℕ) (b : ℚ) :
    (update_performance_budget st pid b).game = st.game := rfl

theorem update_performance_budget_actors (st : DBState) (pid : ℕ) (b : ℚ) :
    (update_performance_budget st pid b).actors = st.actors := rfl

theorem update_performance_budget_ap (st : DBState) (pid : ℕ) (b : ℚ) :
    (update_performance_budget st pid b).actor_performances = st.actor_performances := rfl

theorem complete_performance_game (st : DBState) (pid : ℕ) (r : ℚ) :
    (complete_performance st pid r).game = st.game := rfl

theorem update_game_data_actors (st : DBState) (y : ℤ) (c : ℚ) :
    (update_game_data st y c).actors = st.actors := rfl

theorem update_game_data_performances (st : DBState) (y : ℤ) (c : ℚ) :
    (update_game_data st y c).performances = st.performances := rfl

theorem award_actor_performances (st : DBState) (aid : ℕ) :
    (award_actor st aid).performances = st.performances := rfl

theorem award_actor_game (st : DBState) (aid : ℕ) :
    (award_actor st aid).game = st.game := rfl

theorem upgrade_actor_rank_performances (st : DBState) (aid : ℕ) :
    (upgrade_actor_rank st aid).performances = st.performances := by
  unfold upgrade_actor_rank
  cases st.actors.find? (fun a => a.actor_id == aid) with
  | none => rfl
  | some a =>
    by_cases h : rankIndex a.rank < rank_order.length - 1 <;> simp [h]

theorem upgrade_actor_rank_game (st : DBState) (aid : ℕ) :
    (upgrade_actor_rank st aid).game = st.game := by
  unfold upgrade_actor_rank
  cases st.actors.find? (fun a => a.actor_id == aid) with
  | none => rfl
  | some a =>
    by_cases h : rankIndex a.rank < rank_order.length - 1 <;> simp [h]

theorem awards_step_performances (p t : ℚ) (st : DBState) (ia : ℕ × CastRow) :
    (awards_step p t st ia).performances = st.performances := by
  unfold awards_step
  by_cases h : ia.1 = 0 ∧ t * (3/10) < p
  · simp only [if_pos h, upgrade_actor_rank_performances, award_actor_performances]
  · simp only [if_neg h, award_actor_performances]

theorem awards_step_game (p t : ℚ) (st : DBState) (ia : ℕ × CastRow) :
    (awards_step p t st ia).game = st.game := by
  unfold awards_step
  by_cases h : ia.1 = 0 ∧ t * (3/10) < p
  · simp only [if_pos h, upgrade_actor_rank_game, award_actor_game]
  · simp only [if_neg h, award_actor_game]

theorem awardFold_performances (p t : ℚ) :
    ∀ (l : List (ℕ × CastRow)) (st : DBState),
      (awardFold p t l st).performances = st.performances := by
  intro l
  induction l with
  | nil => intro st; rfl
  | cons x l ih =>
    intro st
    show (awardFold p t l (awards_step p t st x)).performances = st.performances
    rw [ih, awards_step_performances]

theorem awardFold_game (p t : ℚ) :
    ∀ (l : List (ℕ × CastRow)) (st : DBState), (awardFold p t l st).game = st.game := by
  intro l
  induction l with
  | nil => intro st; rfl
  | cons x l ih =>
    intro st
    show (awardFold p t l (awards_step p t st x)).game = st.game
    rw [ih, awards_step_game]

/-! ### List-level behaviour of the award machinery on the actors table -/

theorem map_get_eq {α β : Type} {f g : α → β} {l1 l2 : List α} (h : l1.map f = l2.map g)
    (k : ℕ) (hk1 : k < l1.length) (hk2 : k < l2.length) :
    f (l1.get ⟨k, hk1⟩) = g (l2.get ⟨k, hk2⟩) := by
  have h1 : (l1.map f).get ⟨k, by simpa using hk1⟩ = f (l1.get ⟨k, hk1⟩) := by simp
  have h2 : (l2.map g).get ⟨k, by simpa using hk2⟩ = g (l2.get ⟨k, hk2⟩) := by simp
  rw [← h1, ← h2]
  simpa using List.get_of_eq h ⟨k, by simpa using hk1⟩

theorem nodup_map_inj_on {α β : Type} (f : α → β) :
    ∀ (l : List α), (l.map f).Nodup →
      ∀ b1 ∈ l, ∀ b2 ∈ l, f b1 = f b2 → b1 = b2 := by
  intro l
  induction l with
  | nil => intro _ b1 h1; simp at h1
  | cons a l ih =>
    intro hnd b1 h1 b2 h2 hf
    rw [List.map_cons, List.nodup_cons] at hnd
    rcases List.mem_cons.mp h1 with hb1 | hb1
    · rcases List.mem_cons.mp h2 with hb2 | hb2
      · rw [hb1, hb2]
      · exfalso
        apply hnd.1
        rw [← hb1, hf]
        exact List.mem_map_of_mem f hb2
    · rcases List.mem_cons.mp h2 with hb2 | hb2
      · exfalso
        apply hnd.1
        rw [← hb2, ← hf]
        exact List.mem_map_of_mem f hb1
      · exact ih hnd.2 b1 hb1 b2 hb2 hf

theorem award_actor_proj2 (st : DBState) (aid : ℕ) :
    (award_actor st aid).actors.map (fun a => (a.actor_id, a.experience))
      = st.actors.map (fun a => (a.actor_id, a.experience)) := by
  unfold award_actor
  simp only [List.map_map]
  apply List.map_congr_left
  intro a _
  by_cases h : a.actor_id = aid <;> simp [h]

theorem upgrade_actor_rank_proj (st : DBState) (aid : ℕ) :
    (upgrade_actor_rank st aid).actors.map (fun a => (a.actor_id, a.experience, a.awards_count))
      = st.actors.map (fun a => (a.actor_id, a.experience, a.awards_count)) := by
  unfold upgrade_actor_rank
  cases st.actors.find? (fun a => a.actor_id == aid) with
  | none => rfl
  | some a =>
    by_cases hr : rankIndex a.rank < rank_order.length - 1
    · simp only [hr, if_true, List.map_map]
      apply List.map_congr_left
      intro b _
      by_cases h : b.actor_id = aid <;> simp [h]
    · simp [hr]

theorem upgrade_actor_rank_proj2 (st : DBState) (aid : ℕ) :
    (upgrade_actor_rank st aid).actors.map (fun a => (a.actor_id, a.experience))
      = st.actors.map (fun a => (a.actor_id, a.experience)) := by
  have h := upgrade_actor_rank_proj st aid
  have h2 := congrArg (List.map (fun x : ℕ × ℕ × ℕ => (x.1, x.2.1))) h
  simpa [List.map_map, Function.comp] using h2

theorem awards_step_proj2 (p t : ℚ) (st : DBState) (ia : ℕ × CastRow) :
    (awards_step p t st ia).actors.map (fun a => (a.actor_id, a.experience))
      = st.actors.map (fun a => (a.actor_id, a.experience)) := by
  unfold awards_step
  by_cases h : ia.1 = 0 ∧ t * (3/10) < p
  · simp only [if_pos h]
    rw [upgrade_actor_rank_proj2, award_actor_proj2]
  · simp only [if_neg h]
    rw [award_actor_proj2]

theorem awardFold_proj2 (p t : ℚ) :
    ∀ (l : List (ℕ × CastRow)) (st : DBState),
      (awardFold p t l st).actors.map (fun a => (a.actor_id, a.experience))
        = st.actors.map (fun a => (a.actor_id, a.experience)) := by
  intro l
  induction l with
  | nil => intro st; rfl
  | cons x l ih =>
    intro st
    show (awardFold p t l (awards_step p t st x)).actors.map _ = _
    rw [ih, awards_step_proj2]

theorem awardFold_actors_length (p t : ℚ) (l : List (ℕ × CastRow)) (st : DBState) :
    (awardFold p t l st).actors.length = st.actors.length := by
  have h := congrArg List.length (awardFold_proj2 p t l st)
  simpa using h

theorem award_actor_idawards (st : DBState) (aid : ℕ) :
    (award_actor st aid).actors.map (fun a => (a.actor_id, a.awards_count))
      = st.actors.map (fun a =>
          (a.actor_id, a.awards_count + if a.actor_id = aid then 1 else 0)) := by
  unfold award_actor
  simp only [List.map_map]
  apply List.map_congr_left
  intro a _
  by_cases h : a.actor_id = aid <;> simp [h]

theorem award_actor_idrank (st : DBState) (aid : ℕ) :
    (award_actor st aid).actors.map (fun a => (a.actor_id, a.rank))
      = st.actors.map (fun a => (a.actor_id, a.rank)) := by
  unfold award_actor
  simp only [List.map_map]
  apply List.map_congr_left
  intro a _
  by_cases h : a.actor_id = aid <;> simp [h]

theorem upgrade_actor_rank_idawards (st : DBState) (aid : ℕ) :
    (upgrade_actor_rank st aid).actors.map (fun a => (a.actor_id, a.awards_count))
      = st.actors.map (fun a => (a.actor_id, a.awards_count)) := by
  have h := upgrade_actor_rank_proj st aid
  have h2 := congrArg (List.map (fun x : ℕ × ℕ × ℕ => (x.1, x.2.2))) h
  simpa [List.map_map, Function.comp] using h2

theorem awards_step_idawards (p t : ℚ) (st : DBState) (ia : ℕ × CastRow) :
    (awards_step p t st ia).actors.map (fun a => (a.actor_id, a.awards_count))
      = st.actors.map (fun a =>
          (a.actor_id, a.awards_count + if a.actor_id = ia.2.actor_id then 1 else 0)) := by
  unfold awards_step
  by_cases h : ia.1 = 0 ∧ t * (3/10) < p
  · simp only [if_pos h]
    rw [upgrade_actor_rank_idawards, award_actor_idawards]
  · simp only [if_neg h]
    rw [award_actor_idawards]

theorem awardFold_idawards (p t : ℚ) :
    ∀ (l : List (ℕ × CastRow)) (st : DBState),
      (awardFold p t l st).actors.map (fun a => (a.actor_id, a.awards_count))
        = st.actors.map (fun a =>
            (a.actor_id,
             a.awards_count + l.countP (fun ia => ia.2.actor_id == a.actor_id))) := by
  intro l
  induction l with
  | nil => intro st; simp [awardFold]
  | cons x l ih =>
    intro st
    show (awardFold p t l (awards_step p t st x)).actors.map _ = _
    rw [ih]
    have hcomp : (fun (a : Actor) =>
        (a.actor_id, a.awards_count + l.countP (fun ia => ia.2.actor_id == a.actor_id)))
      = (fun (q : ℕ × ℕ) => (q.1, q.2 + l.countP (fun ia => ia.2.actor_id == q.1)))
          ∘ (fun a => (a.actor_id, a.awards_count)) := by
      funext a
      rfl
    rw [hcomp, ← List.map_map, awards_step_idawards, List.map_map]
    apply List.map_congr_left
    intro a _
    simp only [Function.comp, List.countP_cons]
    by_cases h : a.actor_id = x.2.actor_id
    · simp [h]
      omega
    · have hb : ¬ (x.2.actor_id == a.actor_id) = true := by
        simp [Ne.symm h]
      simp [h, hb]

theorem pyNextRank_eq_getD {r : ActorRank} (h : rankIndex r < rank_order.length - 1) :
    pyNextRank r = rank_order.getD (rankIndex r + 1) .people := by
  simp [pyNextRank, h]

theorem upgrade_actor_rank_idrank (st : DBState) (aid : ℕ)
    (hnd : (st.actors.map (fun a => a.actor_id)).Nodup) :
    (upgrade_actor_rank st aid).actors.map (fun a => (a.actor_id, a.rank))
      = st.actors.map (fun a =>
          (a.actor_id, if a.actor_id = aid then pyNextRank a.rank else a.rank)) := by
  unfold upgrade_actor_rank
  cases hfind : st.actors.find? (fun a => a.actor_id == aid) with
  | none =>
    rw [List.find?_eq_none] at hfind
    apply List.map_congr_left
    intro a ha
    have : ¬ a.actor_id = aid := by
      intro hc
      exact hfind a ha (by simp [hc])
    simp [this]
  | some a0 =>
    have ha0mem : a0 ∈ st.actors := List.mem_of_find?_eq_some hfind
    have ha0id : a0.actor_id = aid := by
      have := List.find?_some hfind
      simpa using this
    by_cases hr : rankIndex a0.rank < rank_order.length - 1
    · simp only [hr, if_true, List.map_map]
      apply List.map_congr_left
      intro b hb
      by_cases h : b.actor_id = aid
      · have hba : b = a0 := nodup_map_inj_on _ st.actors hnd b hb a0 ha0mem (by rw [h, ha0id])
        subst hba
        simp [h, pyNextRank_eq_getD hr]
      · simp [h]
    · simp only [hr, if_false]
      apply List.map_congr_left
      intro b hb
      by_cases h : b.actor_id = aid
      · have hba : b = a0 := nodup_map_inj_on _ st.actors hnd b hb a0 ha0mem (by rw [h, ha0id])
        subst hba
        simp [h, pyNextRank, hr]
      · simp [h]

theorem awards_step_idrank_of_ne (p t : ℚ) (st : DBState) (ia : ℕ × CastRow)
    (h : ¬ (ia.1 = 0 ∧ t * (3/10) < p)) :
    (awards_step p t st ia).actors.map (fun a => (a.actor_id, a.rank))
      = st.actors.map (fun a => (a.actor_id, a.rank)) := by
  unfold awards_step
  simp only [if_neg h]
  rw [award_actor_idrank]

theorem mem_enumFrom_fst_ge {α : Type} :
    ∀ (l : List α) (n : ℕ) (x : ℕ × α), x ∈ List.enumFrom n l → n ≤ x.1 := by
  intro l
  induction l with
  | nil => intro n x h; simp [List.enumFrom] at h
  | cons a l ih =>
    intro n x h
    rcases List.mem_cons.mp h with rfl | h
    · exact le_refl n
    · exact Nat.le_of_succ_le (ih (n + 1) x h)

theorem awardFold_idrank_of_all_pos (p t : ℚ) :
    ∀ (l : List (ℕ × CastRow)), (∀ x ∈ l, x.1 ≠ 0) → ∀ (st : DBState),
      (awardFold p t l st).actors.map (fun a => (a.actor_id, a.rank))
        = st.actors.map (fun a => (a.actor_id, a.rank)) := by
  intro l
  induction l with
  | nil => intro _ st; rfl
  | cons x l ih =>
    intro hx st
    show (awardFold p t l (awards_step p t st x)).actors.map _ = _
    rw [ih (fun y hy => hx y (List.mem_cons_of_mem x hy))]
    rw [awards_step_idrank_of_ne]
    intro hc
    exact hx x (List.mem_cons_self x l) hc.1

theorem awardFold_idrank_of_no_promo (p t : ℚ) (hnp : ¬ t * (3/10) < p) :
    ∀ (l : List (ℕ × CastRow)) (st : DBState),
      (awardFold p t l st).actors.map (fun a => (a.actor_id, a.rank))
        = st.actors.map (fun a => (a.actor_id, a.rank)) := by
  intro l
  induction l with
  | nil => intro st; rfl
  | cons x l ih =>
    intro st
    show (awardFold p t l (awards_step p t st x)).actors.map _ = _
    rw [ih, awards_step_idrank_of_ne]
    intro hc
    exact hnp hc.2

/-! ### Unfolding lemmas for the settlement -/

theorem calculate_performance_result_success (st : DBState) (pid : ℕ) (d : Draws)
    (perf : Performance) (plot : Plot)
    (hperf : st.performances.find? (fun p => p.performance_id == pid) = some perf)
    (hnc : perf.is_completed = false)
    (hplot : st.plots.find? (fun p => p.plot_id == perf.plot_id) = some plot) :
    calculate_performance_result st pid d
      = some (.ok (settle st pid perf plot d).1, (settle st pid perf plot d).2) := by
  unfold calculate_performance_result
  rw [hperf]
  simp [hnc, hplot]

theorem settle_revenue (st : DBState) (pid : ℕ) (perf : Performance) (plot : Plot) (d : Draws) :
    (settle st pid perf plot d).1.revenue
      = total_revenue perf plot (get_actors_in_performance st pid)
          (actors_match_requirements (get_actors_in_performance st pid) plot.required_ranks)
          d.u2 d.u3 := rfl

theorem settle_budget (st : DBState) (pid : ℕ) (perf : Performance) (plot : Plot) (d : Draws) :
    (settle st pid perf plot d).1.budget
      = settle_total_expenses perf plot (get_actors_in_performance st pid) d.u1 := rfl

theorem settle_original_budget (st : DBState) (pid : ℕ) (perf : Performance) (plot : Plot)
    (d : Draws) : (settle st pid perf plot d).1.original_budget = perf.budget := rfl

theorem settle_saved_budget (st : DBState) (pid : ℕ) (perf : Performance) (plot : Plot)
    (d : Draws) :
    (settle st pid perf plot d).1.saved_budget
      = saved_budget perf plot (get_actors_in_performance st pid) := rfl

theorem settle_unexpected (st : DBState) (pid : ℕ) (perf : Performance) (plot : Plot)
    (d : Draws) :
    (settle st pid perf plot d).1.unexpected_expenses
      = unexpected_expenses perf plot (get_actors_in_performance st pid) d.u1 := rfl

theorem settle_profit (st : DBState) (pid : ℕ) (perf : Performance) (plot : Plot) (d : Draws) :
    (settle st pid perf plot d).1.profit
      = settle_profit_q perf plot (get_actors_in_performance st pid)
          (actors_match_requirements (get_actors_in_performance st pid) plot.required_ranks)
          d.u1 d.u2 d.u3 := rfl

theorem settle_awarded (st : DBState) (pid : ℕ) (perf : Performance) (plot : Plot) (d : Draws) :
    (settle st pid perf plot d).1.awarded_actors
      = (if 0 < settle_profit_q perf plot (get_actors_in_performance st pid)
              (actors_match_requirements (get_actors_in_performance st pid) plot.required_ranks)
              d.u1 d.u2 d.u3
         then (sorted_cast (get_actors_in_performance st pid)).take 3 else []) := by
  by_cases h : 0 < settle_profit_q perf plot (get_actors_in_performance st pid)
      (actors_match_requirements (get_actors_in_performance st pid) plot.required_ranks)
      d.u1 d.u2 d.u3
  · unfold settle
    simp only [if_pos h]
    rfl
  · unfold settle
    simp only [if_neg h]

theorem settle_snd (st : DBState) (pid : ℕ) (perf : Performance) (plot : Plot) (d : Draws) :
    (settle st pid perf plot d).2
      = (if 0 < settle_profit_q perf plot (get_actors_in_performance st pid)
              (actors_match_requirements (get_actors_in_performance st pid) plot.required_ranks)
              d.u1 d.u2 d.u3
         then awardFold
           (settle_profit_q perf plot (get_actors_in_performance st pid)
             (actors_match_requirements (get_actors_in_performance st pid) plot.required_ranks)
             d.u1 d.u2 d.u3)
           (settle_total_expenses perf plot (get_actors_in_performance st pid) d.u1)
           (((sorted_cast (get_actors_in_performance st pid)).take 3).enum)
           (settle_mid_state st pid perf plot d)
         else settle_mid_state st pid perf plot d) := by
  by_cases h : 0 < settle_profit_q perf plot (get_actors_in_performance st pid)
      (actors_match_requirements (get_actors_in_performance st pid) plot.required_ranks)
      d.u1 d.u2 d.u3
  · unfold settle
    simp only [if_pos h]
    rfl
  · unfold settle
    simp only [if_neg h]

/-! ### The database state produced by a settlement -/

theorem settle_mid_state_performances (st : DBState) (pid : ℕ) (perf : Performance)
    (plot : Plot) (d : Draws) :
    (settle_mid_state st pid perf plot d).performances
      = st.performances.map (fun p =>
          if p.performance_id == pid then
            { p with
              budget := settle_total_expenses perf plot (get_actors_in_performance st pid) d.u1,
              revenue := ((total_revenue perf plot (get_actors_in_performance st pid)
                (actors_match_requirements (get_actors_in_performance st pid)
                  plot.required_ranks) d.u2 d.u3 : ℤ) : ℚ),
              is_completed := true }
          else p) := by
  show ((st.performances.map _).map _) = _
  rw [List.map_map]
  apply List.map_congr_left
  intro p _
  by_cases h : p.performance_id = pid <;> simp [h]

theorem settle_mid_state_game (st : DBState) (pid : ℕ) (perf : Performance) (plot : Plot)
    (d : Draws) :
    (settle_mid_state st pid perf plot d).game
      = { current_year := st.game.current_year + 1,
          capital := st.game.capital
            + ((total_revenue perf plot (get_actors_in_performance st pid)
                (actors_match_requirements (get_actors_in_performance st pid)
                  plot.required_ranks) d.u2 d.u3 : ℤ) : ℚ)
            + saved_budget perf plot (get_actors_in_performance st pid)
            - ((unexpected_expenses perf plot (get_actors_in_performance st pid) d.u1 : ℤ) : ℚ) } :=
  rfl

theorem settle_mid_state_actors (st : DBState) (pid : ℕ) (perf : Performance) (plot : Plot)
    (d : Draws) :
    (settle_mid_state st pid perf plot d).actors
      = st.actors.map (fun a =>
          if st.actor_performances.any
              (fun c => c.actor_id == a.actor_id && c.performance_id == pid)
          then { a with experience := a.experience + 1 } else a) := rfl

theorem settle_snd_performances (st : DBState) (pid : ℕ) (perf : Performance) (plot : Plot)
    (d : Draws) :
    (settle st pid perf plot d).2.performances
      = (settle_mid_state st pid perf plot d).performances := by
  rw [settle_snd]
  by_cases h : 0 < settle_profit_q perf plot (get_actors_in_performance st pid)
      (actors_match_requirements (get_actors_in_performance st pid) plot.required_ranks)
      d.u1 d.u2 d.u3
  · rw [if_pos h, awardFold_performances]
  · rw [if_neg h]

theorem settle_snd_game (st : DBState) (pid : ℕ) (perf : Performance) (plot : Plot)
    (d : Draws) :
    (settle st pid perf plot d).2.game = (settle_mid_state st pid perf plot d).game := by
  rw [settle_snd]
  by_cases h : 0 < settle_profit_q perf plot (get_actors_in_performance st pid)
      (actors_match_requirements (get_actors_in_performance st pid) plot.required_ranks)
      d.u1 d.u2 d.u3
  · rw [if_pos h, awardFold_game]
  · rw [if_neg h]

theorem settle_snd_actors_proj2 (st : DBState) (pid : ℕ) (perf : Performance) (plot : Plot)
    (d : Draws) :
    (settle st pid perf plot d).2.actors.map (fun a => (a.actor_id, a.experience))
      = (settle_mid_state st pid perf plot d).actors.map (fun a => (a.actor_id, a.experience)) := by
  rw [settle_snd]
  by_cases h : 0 < settle_profit_q perf plot (get_actors_in_performance st pid)
      (actors_match_requirements (get_actors_in_performance st pid) plot.required_ranks)
      d.u1 d.u2 d.u3
  · rw [if_pos h, awardFold_proj2]
  · rw [if_neg h]

theorem settle_snd_actors_length (st : DBState) (pid : ℕ) (perf : Performance) (plot : Plot)
    (d : Draws) :
    (settle st pid perf plot d).2.actors.length = st.actors.length := by
  have h := congrArg List.length (settle_snd_actors_proj2 st pid perf plot d)
  simp only [List.length_map] at h
  rw [h, settle_mid_state_actors, List.length_map]

theorem countP_enumFrom {α : Type} (q : α → Bool) :
    ∀ (l : List α) (n : ℕ),
      (List.enumFrom n l).countP (fun ia => q ia.2) = l.countP q := by
  intro l
  induction l with
  | nil => intro n; rfl
  | cons a l ih =>
    intro n
    simp only [List.enumFrom, List.countP_cons, ih]

/-! ### Sorting and counting facts for the award loop -/

theorem keyLe_total_pair (x y : ℕ × ℕ × ℕ) : keyLe x y ∨ keyLe y x := by
  unfold keyLe
  omega

theorem keyLe_trans_triple (x y z : ℕ × ℕ × ℕ) : keyLe x y → keyLe y z → keyLe x z := by
  unfold keyLe
  omega

instance : IsTotal CastRow castDesc :=
  ⟨fun a b => (keyLe_total_pair (pyKey b) (pyKey a)).elim Or.inl Or.inr⟩

instance : IsTrans CastRow castDesc :=
  ⟨fun _ _ _ hab hbc => keyLe_trans_triple _ _ _ hbc hab⟩

theorem sorted_cast_perm (l : List CastRow) : (sorted_cast l).Perm l :=
  List.perm_insertionSort castDesc l

theorem sorted_cast_sorted (l : List CastRow) : List.Sorted castDesc (sorted_cast l) :=
  List.sorted_insertionSort castDesc l

theorem sorted_cast_ids_nodup (l : List CastRow)
    (h : (l.map (fun a => a.actor_id)).Nodup) :
    ((sorted_cast l).map (fun a => a.actor_id)).Nodup :=
  (((sorted_cast_perm l).map (fun a => a.actor_id)).symm).nodup h

theorem take3_ids_nodup (l : List CastRow)
    (h : (l.map (fun a => a.actor_id)).Nodup) :
    (((sorted_cast l).take 3).map (fun a => a.actor_id)).Nodup := by
  rw [List.map_take]
  exact (List.take_sublist 3 _).nodup (sorted_cast_ids_nodup l h)

theorem countP_own_id (l : List CastRow)
    (h : (l.map (fun a => a.actor_id)).Nodup) (row : CastRow) (hrow : row ∈ l) :
    l.countP (fun a => a.actor_id == row.actor_id) = 1 := by
  have h1 : l.countP (fun a => a.actor_id == row.actor_id)
      = (l.map (fun a => a.actor_id)).count row.actor_id := by
    rw [List.count, List.countP_map]
    rfl
  rw [h1]
  exact List.count_eq_one_of_mem h (List.mem_map_of_mem _ hrow)

/-! ### Award and rank bookkeeping of the full settlement -/

theorem mid_state_idawards (st : DBState) (pid : ℕ) (perf : Performance) (plot : Plot)
    (d : Draws) :
    (settle_mid_state st pid perf plot d).actors.map (fun a => (a.actor_id, a.awards_count))
      = st.actors.map (fun a => (a.actor_id, a.awards_count)) := by
  rw [settle_mid_state_actors, List.map_map]
  apply List.map_congr_left
  intro a _
  by_cases h : (st.actor_performances.any
      (fun c => c.actor_id == a.actor_id && c.performance_id == pid)) = true
  · simp only [Function.comp_apply, if_pos h]
  · simp only [Function.comp_apply, if_neg h]

theorem mid_state_idrank (st : DBState) (pid : ℕ) (perf : Performance) (plot : Plot)
    (d : Draws) :
    (settle_mid_state st pid perf plot d).actors.map (fun a => (a.actor_id, a.rank))
      = st.actors.map (fun a => (a.actor_id, a.rank)) := by
  rw [settle_mid_state_actors, List.map_map]
  apply List.map_congr_left
  intro a _
  by_cases h : (st.actor_performances.any
      (fun c => c.actor_id == a.actor_id && c.performance_id == pid)) = true
  · simp only [Function.comp_apply, if_pos h]
  · simp only [Function.comp_apply, if_neg h]

theorem mid_state_ids (st : DBState) (pid : ℕ) (perf : Performance) (plot : Plot)
    (d : Draws) :
    (settle_mid_state st pid perf plot d).actors.map (fun a => a.actor_id)
      = st.actors.map (fun a => a.actor_id) := by
  have h := congrArg (List.map (fun x : ℕ × ℕ => x.1)) (mid_state_idawards st pid perf plot d)
  simpa [List.map_map, Function.comp] using h

theorem award_actor_ids (st : DBState) (aid : ℕ) :
    (award_actor st aid).actors.map (fun a => a.actor_id)
      = st.actors.map (fun a => a.actor_id) := by
  have h := congrArg (List.map (fun x : ℕ × ActorRank => x.1)) (award_actor_idrank st aid)
  simpa [List.map_map, Function.comp] using h

theorem awardFold_cons (p t : ℚ) (x : ℕ × CastRow) (l : List (ℕ × CastRow)) (st : DBState) :
    awardFold p t (x :: l) st = awardFold p t l (awards_step p t st x) := rfl

theorem awards_step_zero_promo (p t : ℚ) (st : DBState) (row : CastRow)
    (hc : t * (3/10) < p) :
    awards_step p t st (0, row) = upgrade_actor_rank (award_actor st row.actor_id) row.actor_id := by
  unfold awards_step
  rw [if_pos ⟨rfl, hc⟩]

theorem settle_actors_idawards (st : DBState) (pid : ℕ) (perf : Performance) (plot : Plot)
    (d : Draws) :
    (settle st pid perf plot d).2.actors.map (fun a => (a.actor_id, a.awards_count))
      = st.actors.map (fun a =>
          (a.actor_id,
           a.awards_count
             + (if 0 < settle_profit_q perf plot (get_actors_in_performance st pid)
      (actors_match_requirements (get_actors_in_performance st pid) plot.required_ranks) d.u1 d.u2 d.u3
                then ((sorted_cast (get_actors_in_performance st pid)).take 3).countP (fun r => r.actor_id == a.actor_id)
                else 0))) := by
  rw [settle_snd]
  by_cases hp : 0 < settle_profit_q perf plot (get_actors_in_performance st pid)
      (actors_match_requirements (get_actors_in_performance st pid) plot.required_ranks) d.u1 d.u2 d.u3
  · rw [if_pos hp, awardFold_idawards]
    have hcomp : (fun (a : Actor) =>
        (a.actor_id,
         a.awards_count + (((sorted_cast (get_actors_in_performance st pid)).take 3).enum).countP
           (fun ia => ia.2.actor_id == a.actor_id)))
      = (fun (q : ℕ × ℕ) =>
          (q.1, q.2 + (((sorted_cast (get_actors_in_performance st pid)).take 3).enum).countP
            (fun ia => ia.2.actor_id == q.1)))
        ∘ (fun a => (a.actor_id, a.awards_count)) := rfl
    rw [hcomp, ← List.map_map, mid_state_idawards, List.map_map]
    apply List.map_congr_left
    intro a _
    simp only [Function.comp_apply, if_pos hp]
    exact congrArg (fun n => (a.actor_id, a.awards_count + n))
      (countP_enumFrom (fun r => r.actor_id == a.actor_id) ((sorted_cast (get_actors_in_performance st pid)).take 3) 0)
  · rw [if_neg hp, mid_state_idawards]
    apply List.map_congr_left
    intro a _
    simp only [if_neg hp, Nat.add_zero]

theorem settle_actors_idrank_of_no_promo (st : DBState) (pid : ℕ) (perf : Performance)
    (plot : Plot) (d : Draws)
    (h : ¬ (0 < settle_profit_q perf plot (get_actors_in_performance st pid)
      (actors_match_requirements (get_actors_in_performance st pid) plot.required_ranks) d.u1 d.u2 d.u3 ∧ (settle_total_expenses perf plot (get_actors_in_performance st pid) d.u1) * (3/10) < settle_profit_q perf plot (get_actors_in_performance st pid)
      (actors_match_requirements (get_actors_in_performance st pid) plot.required_ranks) d.u1 d.u2 d.u3)) :
    (settle st pid perf plot d).2.actors.map (fun a => (a.actor_id, a.rank))
      = st.actors.map (fun a => (a.actor_id, a.rank)) := by
  rw [settle_snd]
  by_cases hp : 0 < settle_profit_q perf plot (get_actors_in_performance st pid)
      (actors_match_requirements (get_actors_in_performance st pid) plot.required_ranks) d.u1 d.u2 d.u3
  · rw [if_pos hp, awardFold_idrank_of_no_promo _ _ (fun hc => h ⟨hp, hc⟩), mid_state_idrank]
  · rw [if_neg hp, mid_state_idrank]

theorem settle_actors_idrank_of_empty (st : DBState) (pid : ℕ) (perf : Performance)
    (plot : Plot) (d : Draws) (h : sorted_cast (get_actors_in_performance st pid) = []) :
    (settle st pid perf plot d).2.actors.map (fun a => (a.actor_id, a.rank))
      = st.actors.map (fun a => (a.actor_id, a.rank)) := by
  rw [settle_snd]
  by_cases hp : 0 < settle_profit_q perf plot (get_actors_in_performance st pid)
      (actors_match_requirements (get_actors_in_performance st pid) plot.required_ranks) d.u1 d.u2 d.u3
  · rw [if_pos hp, h]
    simp only [List.take_nil, List.enum_nil]
    rw [show awardFold (settle_profit_q perf plot (get_actors_in_performance st pid)
      (actors_match_requirements (get_actors_in_performance st pid) plot.required_ranks) d.u1 d.u2 d.u3)
        (settle_total_expenses perf plot (get_actors_in_performance st pid) d.u1) [] (settle_mid_state st pid perf plot d)
        = settle_mid_state st pid perf plot d from rfl, mid_state_idrank]
  · rw [if_neg hp, mid_state_idrank]

theorem settle_actors_idrank_of_promo (st : DBState) (pid : ℕ) (perf : Performance)
    (plot : Plot) (d : Draws)
    (hnodup : (st.actors.map (fun a => a.actor_id)).Nodup)
    (top : CastRow) (rest : List CastRow)
    (hs : sorted_cast (get_actors_in_performance st pid) = top :: rest)
    (hp : 0 < settle_profit_q perf plot (get_actors_in_performance st pid)
      (actors_match_requirements (get_actors_in_performance st pid) plot.required_ranks) d.u1 d.u2 d.u3)
    (hc : (settle_total_expenses perf plot (get_actors_in_performance st pid) d.u1) * (3/10) < settle_profit_q perf plot (get_actors_in_performance st pid)
      (actors_match_requirements (get_actors_in_performance st pid) plot.required_ranks) d.u1 d.u2 d.u3) :
    (settle st pid perf plot d).2.actors.map (fun a => (a.actor_id, a.rank))
      = st.actors.map (fun b =>
          (b.actor_id,
           if b.actor_id = top.actor_id then pyNextRank b.rank else b.rank)) := by
  rw [settle_snd, if_pos hp, hs, show (3:ℕ) = 2 + 1 from rfl, List.take_succ_cons,
    List.enum_cons, awardFold_cons, awardFold_idrank_of_all_pos _ _ _
      (fun x hx => by have := mem_enumFrom_fst_ge _ 1 x hx; omega),
    awards_step_zero_promo _ _ _ _ hc]
  have hnodupY : ((award_actor (settle_mid_state st pid perf plot d) top.actor_id).actors.map
      (fun a => a.actor_id)).Nodup := by
    rw [award_actor_ids, mid_state_ids]
    exact hnodup
  rw [upgrade_actor_rank_idrank _ _ hnodupY]
  rw [show (award_actor (settle_mid_state st pid perf plot d) top.actor_id).actors
      = (settle_mid_state st pid perf plot d).actors.map (fun a =>
          if a.actor_id == top.actor_id
          then { a with awards_count := a.awards_count + 1 } else a) from rfl,
    List.map_map]
  have hstep : ((fun b : Actor =>
      (b.actor_id, if b.actor_id = top.actor_id then pyNextRank b.rank else b.rank))
        ∘ (fun a : Actor =>
          if a.actor_id == top.actor_id
          then { a with awards_count := a.awards_count + 1 } else a))
      = (fun b : Actor =>
          (b.actor_id, if b.actor_id = top.actor_id then pyNextRank b.rank else b.rank)) := by
    funext b
    by_cases hb : b.actor_id = top.actor_id <;> simp [hb]
  rw [hstep]
  have hcomp : (fun b : Actor =>
      (b.actor_id, if b.actor_id = top.actor_id then pyNextRank b.rank else b.rank))
      = (fun q : ℕ × ActorRank =>
          (q.1, if q.1 = top.actor_id then pyNextRank q.2 else q.2))
        ∘ (fun a : Actor => (a.actor_id, a.rank)) := rfl
  rw [hcomp, ← List.map_map, mid_state_idrank, List.map_map]

/-! ### Claim theorems -/

/-- C1: when the performance id does not resolve to a row, or resolves to an
already-completed row, `calculate_performance_result` returns the failure pair
with the descriptive message and the database state unchanged, so a pending
performance can be settled at most once. -/
theorem c1_settle_precondition_noop (st : DBState) (pid : ℕ) (d : Draws)
    (h : ∀ p, st.performances.find? (fun q => q.performance_id == pid) = some p →
      p.is_completed = true) :
    calculate_performance_result st pid d
      = some (.error "Спектакль не найден или уже завершен", st) := by
  unfold calculate_performance_result
  cases hf : st.performances.find? (fun q => q.performance_id == pid) with
  | none => rfl
  | some p =>
    have hc := h p hf
    simp [hc]

/-- C2: on a pending performance with plot and cast resolved, the settlement
computes the total cost as production cost plus the cast contract costs, caps
the spending at the allocated budget, returns the non-negative remainder as
saved budget, prices the base revenue as `actual_budget * (0.7 + 0.08*demand)`
and draws the unexpected expenses as `floor(actual_budget * u)` for a uniform
`u` in `[0.05, 0.15]`. -/
theorem c2_settlement_cost_components (st : DBState) (pid : ℕ) (d : Draws)
    (perf : Performance) (plot : Plot)
    (hperf : st.performances.find? (fun p => p.performance_id == pid) = some perf)
    (hnc : perf.is_completed = false)
    (hplot : st.plots.find? (fun p => p.plot_id == perf.plot_id) = some plot)
    (hu1 : 0 ≤ d.u1 ∧ d.u1 < 1)
    (hbud : 0 ≤ perf.budget)
    (hprod : 0 ≤ plot.production_cost)
    (hcast : ∀ a ∈ get_actors_in_performance st pid, 0 ≤ a.contract_cost) :
    ∃ res st2, calculate_performance_result st pid d = some (.ok res, st2) ∧
      total_spent plot (get_actors_in_performance st pid)
        = plot.production_cost
          + ((get_actors_in_performance st pid).map (fun a => a.contract_cost)).sum ∧
      actual_budget perf plot (get_actors_in_performance st pid)
        = min perf.budget (total_spent plot (get_actors_in_performance st pid)) ∧
      res.original_budget = perf.budget ∧
      res.saved_budget
        = perf.budget - actual_budget perf plot (get_actors_in_performance st pid) ∧
      0 ≤ res.saved_budget ∧
      base_revenue perf plot (get_actors_in_performance st pid)
        = actual_budget perf plot (get_actors_in_performance st pid)
          * (7/10 + (2/25) * plot.demand) ∧
      (∃ u, 1/20 ≤ u ∧ u ≤ 3/20 ∧
        res.unexpected_expenses
          = ⌊actual_budget perf plot (get_actors_in_performance st pid) * u⌋) ∧
      0 ≤ res.unexpected_expenses ∧
      res.budget
        = actual_budget perf plot (get_actors_in_performance st pid)
          + (res.unexpected_expenses : ℚ) := by
  have hab := @actual_budget_nonneg perf plot (get_actors_in_performance st pid) hbud hprod hcast
  have humem := uniform_mem (by norm_num : (1:ℚ)/20 ≤ 3/20) hu1.1 hu1.2
  have hu0 : 0 ≤ uniform (1/20) (3/20) d.u1 := le_trans (by norm_num) humem.1
  refine ⟨(settle st pid perf plot d).1, (settle st pid perf plot d).2,
    calculate_performance_result_success st pid d perf plot hperf hnc hplot,
    total_spent_eq plot _, rfl, settle_original_budget st pid perf plot d, ?_, ?_, rfl,
    ⟨uniform (1/20) (3/20) d.u1, humem.1, humem.2, ?_⟩, ?_, ?_⟩
  · rw [settle_saved_budget]
    rfl
  · rw [settle_saved_budget]
    unfold saved_budget actual_budget
    have := min_le_left perf.budget (total_spent plot (get_actors_in_performance st pid))
    linarith
  · rw [settle_unexpected]
    unfold unexpected_expenses
    exact pyInt_eq_floor (mul_nonneg hab hu0)
  · rw [settle_unexpected]
    unfold unexpected_expenses
    rw [pyInt_eq_floor (mul_nonneg hab hu0)]
    exact Int.le_floor.mpr (by simpa using mul_nonneg hab hu0)
  · rw [settle_budget, settle_unexpected]
    rfl

/-- C3: the settlement revenue is `floor((base_revenue + bonus) * multiplier)`
where the bonus is the stated per-actor sum and the multiplier is drawn from
the tier selected by the fate roll: failure below the compliance-dependent
threshold (with the worse range when non-compliant), normal below 0.9, success
otherwise. -/
theorem c3_revenue_formula_and_tiers (st : DBState) (pid : ℕ) (d : Draws)
    (perf : Performance) (plot : Plot)
    (hperf : st.performances.find? (fun p => p.performance_id == pid) = some perf)
    (hnc : perf.is_completed = false)
    (hplot : st.plots.find? (fun p => p.plot_id == perf.plot_id) = some plot)
    (hu2 : 0 ≤ d.u2 ∧ d.u2 < 1) (hu3 : 0 ≤ d.u3 ∧ d.u3 < 1)
    (hbud : 0 ≤ perf.budget)
    (hprod : 0 ≤ plot.production_cost)
    (hdem : 0 ≤ plot.demand)
    (hcast : ∀ a ∈ get_actors_in_performance st pid, 0 ≤ a.contract_cost) :
    ∃ res st2, calculate_performance_result st pid d = some (.ok res, st2) ∧
      actors_bonus (get_actors_in_performance st pid)
        = ((get_actors_in_performance st pid).map (fun a =>
            a.contract_cost * (1 + (rankIndex a.rank : ℚ) * (3/20))
              * (1 + (a.awards_count : ℚ) * (1/20) + (a.experience : ℚ) * (1/100)))).sum ∧
      res.revenue
        = ⌊(base_revenue perf plot (get_actors_in_performance st pid)
            + actors_bonus (get_actors_in_performance st pid))
           * random_factor
              (actors_match_requirements (get_actors_in_performance st pid) plot.required_ranks)
              d.u2 d.u3⌋ ∧
      (∀ compliant : Bool, fail_chance compliant = (if compliant then 2/5 else 3/5)) ∧
      (∀ compliant : Bool,
        (d.u2 < fail_chance compliant →
          (compliant = true →
            2/5 ≤ random_factor compliant d.u2 d.u3 ∧ random_factor compliant d.u2 d.u3 ≤ 7/10) ∧
          (compliant = false →
            3/10 ≤ random_factor compliant d.u2 d.u3 ∧ random_factor compliant d.u2 d.u3 ≤ 1/2)) ∧
        (fail_chance compliant ≤ d.u2 → d.u2 < 9/10 →
          7/10 ≤ random_factor compliant d.u2 d.u3 ∧ random_factor compliant d.u2 d.u3 ≤ 1) ∧
        (9/10 ≤ d.u2 →
          1 ≤ random_factor compliant d.u2 d.u3 ∧ random_factor compliant d.u2 d.u3 ≤ 7/5)) := by
  refine ⟨(settle st pid perf plot d).1, (settle st pid perf plot d).2,
    calculate_performance_result_success st pid d perf plot hperf hnc hplot, ?_, ?_, ?_, ?_⟩
  · rw [actors_bonus_eq]
    rfl
  · rw [settle_revenue]
    unfold total_revenue
    apply pyInt_eq_floor
    have h1 := @base_revenue_nonneg perf plot (get_actors_in_performance st pid) hbud hprod hcast hdem
    have h2 := actors_bonus_nonneg hcast
    have h3 := @random_factor_nonneg
      (actors_match_requirements (get_actors_in_performance st pid) plot.required_ranks)
      d.u2 d.u3 hu3.1 hu3.2
    exact mul_nonneg (by linarith) h3
  · intro compliant
    rfl
  · intro compliant
    refine ⟨?_, ?_, ?_⟩
    · intro hfail
      constructor
      · intro hcomp
        subst hcomp
        unfold random_factor
        rw [if_pos hfail, if_pos rfl]
        exact uniform_mem (by norm_num) hu3.1 hu3.2
      · intro hcomp
        subst hcomp
        unfold random_factor
        rw [if_pos hfail]
        simpa using uniform_mem (by norm_num : (3:ℚ)/10 ≤ 1/2) hu3.1 hu3.2
    · intro hge hlt
      unfold random_factor
      rw [if_neg (not_lt.mpr hge), if_pos hlt]
      exact uniform_mem (by norm_num) hu3.1 hu3.2
    · intro hge
      have hfc : fail_chance compliant ≤ 3/5 := by
        cases compliant <;> norm_num [fail_chance]
      unfold random_factor
      rw [if_neg (not_lt.mpr (by linarith)), if_neg (not_lt.mpr (by linarith))]
      exact uniform_mem (by norm_num) hu3.1 hu3.2

theorem mem_cast_any (st : DBState) (pid : ℕ) :
    ∀ row ∈ get_actors_in_performance st pid,
      st.actor_performances.any
        (fun c => c.actor_id == row.actor_id && c.performance_id == pid) = true := by
  intro row hrow
  unfold get_actors_in_performance at hrow
  rw [List.mem_filterMap] at hrow
  obtain ⟨c, hc, hfc⟩ := hrow
  rw [List.mem_filter] at hc
  obtain ⟨hcmem, hcpid⟩ := hc
  rw [List.any_eq_true]
  refine ⟨c, hcmem, ?_⟩
  cases hfind : st.actors.find? (fun a => a.actor_id == c.actor_id) with
  | none =>
    rw [hfind] at hfc
    simp at hfc
  | some a0 =>
    rw [hfind] at hfc
    have hid : a0.actor_id = c.actor_id := by
      have := List.find?_some hfind
      simpa using this
    have hrow2 : row.actor_id = a0.actor_id := by
      have : (⟨a0.actor_id, a0.rank, a0.awards_count, a0.experience, c.contract_cost⟩ : CastRow)
          = row := by simpa using hfc
      rw [← this]
    rw [Bool.and_eq_true]
    constructor
    · simp [hrow2, hid]
    · simpa using hcpid

/-- C4: a successful settlement persists exactly the stated updates: the
performance's budget becomes the total expenses, its flag becomes completed,
its revenue becomes the computed revenue, every actor cast in the performance
gains one experience point (and only those actors change experience), the
capital grows by exactly `revenue + saved_budget - unexpected_expenses` and
the year advances by exactly one. -/
theorem c4_settlement_state_updates (st : DBState) (pid : ℕ) (d : Draws)
    (perf : Performance) (plot : Plot)
    (hperf : st.performances.find? (fun p => p.performance_id == pid) = some perf)
    (hnc : perf.is_completed = false)
    (hplot : st.plots.find? (fun p => p.plot_id == perf.plot_id) = some plot) :
    ∃ res st2, calculate_performance_result st pid d = some (.ok res, st2) ∧
      res.budget
        = actual_budget perf plot (get_actors_in_performance st pid)
          + (res.unexpected_expenses : ℚ) ∧
      st2.performances
        = st.performances.map (fun p =>
            if p.performance_id == pid then
              { p with budget := res.budget, revenue := ((res.revenue : ℤ) : ℚ),
                       is_completed := true }
            else p) ∧
      st2.game.capital
        = st.game.capital + ((res.revenue : ℤ) : ℚ) + res.saved_budget
          - ((res.unexpected_expenses : ℤ) : ℚ) ∧
      st2.game.current_year = st.game.current_year + 1 ∧
      st2.actors.length = st.actors.length ∧
      (∀ k (hk : k < st.actors.length) (hk2 : k < st2.actors.length),
        (st2.actors.get ⟨k, hk2⟩).actor_id = (st.actors.get ⟨k, hk⟩).actor_id ∧
        (st2.actors.get ⟨k, hk2⟩).experience
          = (st.actors.get ⟨k, hk⟩).experience
            + (if st.actor_performances.any
                  (fun c => c.actor_id == (st.actors.get ⟨k, hk⟩).actor_id
                    && c.performance_id == pid)
               then 1 else 0)) ∧
      (∀ row ∈ get_actors_in_performance st pid,
        st.actor_performances.any
          (fun c => c.actor_id == row.actor_id && c.performance_id == pid) = true) := by
  refine ⟨(settle st pid perf plot d).1, (settle st pid perf plot d).2,
    calculate_performance_result_success st pid d perf plot hperf hnc hplot,
    by rw [settle_budget, settle_unexpected]; rfl, ?_, ?_, ?_,
    settle_snd_actors_length st pid perf plot d, ?_, mem_cast_any st pid⟩
  · rw [settle_snd_performances, settle_mid_state_performances]
    rfl
  · rw [settle_snd_game, settle_mid_state_game]
    rfl
  · rw [settle_snd_game, settle_mid_state_game]
  · have hmap : (settle st pid perf plot d).2.actors.map (fun a => (a.actor_id, a.experience))
        = st.actors.map (fun a =>
            (a.actor_id,
             a.experience
               + (if st.actor_performances.any
                    (fun c => c.actor_id == a.actor_id && c.performance_id == pid)
                  then 1 else 0))) := by
      rw [settle_snd_actors_proj2, settle_mid_state_actors, List.map_map]
      apply List.map_congr_left
      intro a _
      by_cases h : (st.actor_performances.any
          (fun c => c.actor_id == a.actor_id && c.performance_id == pid)) = true
      · simp only [Function.comp_apply, if_pos h]
      · simp only [Function.comp_apply, if_neg h]
        rw [Nat.add_zero]
    intro k hk hk2
    have h := map_get_eq hmap k hk2 hk
    exact ⟨congrArg Prod.fst h, congrArg Prod.snd h⟩

/-- C6: the compliance flag is false exactly when some cast slot carrying a
declared minimum rank is filled by an actor of strictly lower rank index
(the loop stops at the first violation, which does not change the resulting
flag); the flag never blocks the settlement, and a fate roll at or above the
non-compliant threshold makes the multiplier independent of the flag, so the
flag only influences the failure threshold and the failure multiplier range. -/
theorem c6_soft_compliance (st : DBState) (pid : ℕ) (d : Draws)
    (perf : Performance) (plot : Plot)
    (hperf : st.performances.find? (fun p => p.performance_id == pid) = some perf)
    (hnc : perf.is_completed = false)
    (hplot : st.plots.find? (fun p => p.plot_id == perf.plot_id) = some plot) :
    (∀ (actors : List CastRow) (required_ranks : List ActorRank),
      actors_match_requirements actors required_ranks = false ↔
        ∃ i, ∃ (h1 : i < actors.length) (h2 : i < required_ranks.length),
          rankIndex ((actors.get ⟨i, h1⟩).rank)
            < rankIndex (required_ranks.get ⟨i, h2⟩)) ∧
    (∃ res st2, calculate_performance_result st pid d = some (.ok res, st2)) ∧
    (∀ u2 u3 : ℚ, 3/5 ≤ u2 → random_factor true u2 u3 = random_factor false u2 u3) := by
  refine ⟨actors_match_requirements_eq_false_iff, ⟨(settle st pid perf plot d).1,
    (settle st pid perf plot d).2,
    calculate_performance_result_success st pid d perf plot hperf hnc hplot⟩, ?_⟩
  intro u2 u3 h
  unfold random_factor fail_chance
  simp only [eq_self_iff_true, Bool.false_eq_true, if_true, if_false]
  rw [if_neg (not_lt.mpr (le_trans (by norm_num : (2:ℚ)/5 ≤ 3/5) h)),
    if_neg (not_lt.mpr h)]

/-- C7: the contract cost formula is
`contract = 30000 + rank_index*10000 + experience*2000 + awards*5000` with
`premium = contract/5` and `total = contract + premium`, and the contract and
total are strictly increasing in rank index, experience and awards count
separately. -/
theorem c7_contract_cost :
    (∀ actor : Actor,
      calculate_contract_cost actor
        = { contract := 30000 + (rankIndex actor.rank : ℚ) * 10000
              + (actor.experience : ℚ) * 2000 + (actor.awards_count : ℚ) * 5000,
            premium := (30000 + (rankIndex actor.rank : ℚ) * 10000
              + (actor.experience : ℚ) * 2000 + (actor.awards_count : ℚ) * 5000) / 5,
            total := (30000 + (rankIndex actor.rank : ℚ) * 10000
              + (actor.experience : ℚ) * 2000 + (actor.awards_count : ℚ) * 5000)
              + (30000 + (rankIndex actor.rank : ℚ) * 10000
                + (actor.experience : ℚ) * 2000 + (actor.awards_count : ℚ) * 5000) / 5 }) ∧
    (∀ a b : Actor, rankIndex a.rank < rankIndex b.rank →
      a.experience = b.experience → a.awards_count = b.awards_count →
      (calculate_contract_cost a).contract < (calculate_contract_cost b).contract ∧
      (calculate_contract_cost a).total < (calculate_contract_cost b).total) ∧
    (∀ a b : Actor, a.rank = b.rank → a.experience < b.experience →
      a.awards_count = b.awards_count →
      (calculate_contract_cost a).contract < (calculate_contract_cost b).contract ∧
      (calculate_contract_cost a).total < (calculate_contract_cost b).total) ∧
    (∀ a b : Actor, a.rank = b.rank → a.experience = b.experience →
      a.awards_count < b.awards_count →
      (calculate_contract_cost a).contract < (calculate_contract_cost b).contract ∧
      (calculate_contract_cost a).total < (calculate_contract_cost b).total) := by
  refine ⟨fun actor => rfl, ?_, ?_, ?_⟩
  · intro a b hr he ha
    have hrq : (rankIndex a.rank : ℚ) < (rankIndex b.rank : ℚ) := by exact_mod_cast hr
    unfold calculate_contract_cost
    rw [he, ha]
    constructor <;> · simp only []; linarith
  · intro a b hr he ha
    have heq : (a.experience : ℚ) < (b.experience : ℚ) := by exact_mod_cast he
    unfold calculate_contract_cost
    rw [hr, ha]
    constructor <;> · simp only []; linarith
  · intro a b hr he ha
    have haq : (a.awards_count : ℚ) < (b.awards_count : ℚ) := by exact_mod_cast ha
    unfold calculate_contract_cost
    rw [hr, he]
    constructor <;> · simp only []; linarith

/-- C8: skipping a year sells the rights for `floor(capital * u)` with `u`
uniform in `[0.1, 0.2]`, adds them to the capital, advances the year by one,
leaves every table unchanged and cannot fail. -/
theorem c8_skip_year (st : DBState) (u : ℚ)
    (hcap : 0 ≤ st.game.capital) (hu : 0 ≤ u ∧ u < 1) :
    (1/10 ≤ uniform (1/10) (1/5) u ∧ uniform (1/10) (1/5) u ≤ 1/5) ∧
    (skip_year st u).2.rights_sale = ⌊st.game.capital * uniform (1/10) (1/5) u⌋ ∧
    (skip_year st u).2.year = st.game.current_year + 1 ∧
    (skip_year st u).2.capital
      = st.game.capital + (((skip_year st u).2.rights_sale : ℤ) : ℚ) ∧
    (skip_year st u).1.game.current_year = st.game.current_year + 1 ∧
    (skip_year st u).1.game.capital
      = st.game.capital + (((skip_year st u).2.rights_sale : ℤ) : ℚ) ∧
    (skip_year st u).1.actors = st.actors ∧
    (skip_year st u).1.plots = st.plots ∧
    (skip_year st u).1.performances = st.performances ∧
    (skip_year st u).1.actor_performances = st.actor_performances := by
  have humem := uniform_mem (by norm_num : (1:ℚ)/10 ≤ 1/5) hu.1 hu.2
  have hu0 : 0 ≤ uniform (1/10) (1/5) u := le_trans (by norm_num) humem.1
  refine ⟨humem, ?_, rfl, rfl, rfl, rfl, rfl, rfl, rfl, rfl⟩
  show pyInt (st.game.capital * uniform (1/10) (1/5) u) = _
  exact pyInt_eq_floor (mul_nonneg hcap hu0)

/-- C9: deleting a plot referenced by at least one performance fails with the
"plot in use" message and leaves the whole database unchanged. -/
theorem c9_delete_plot_in_use (st : DBState) (pid : ℕ)
    (h : ∃ p ∈ st.performances, p.plot_id = pid) :
    delete_plot st pid
      = ((false, "Сюжет используется в спектаклях и не может быть удален"), st) := by
  unfold delete_plot
  rw [if_pos]
  obtain ⟨p, hp, hpid⟩ := h
  rw [List.length_pos]
  intro hc
  have : p ∈ st.performances.filter (fun q => q.plot_id == pid) := by
    rw [List.mem_filter]
    exact ⟨hp, by simp [hpid]⟩
  rw [hc] at this
  simp at this

/-- C10 counterexample: with exactly five plots and the targeted plot still
referenced by a performance, the deletion fails, but with the "plot in use"
message, not the "minimum number of plots" message the claim requires for
every database with at most five plots. -/
theorem c10_counterexample :
    ((⟨[], [⟨1, 1, 1, 1, 1, []⟩, ⟨2, 1, 1, 1, 1, []⟩, ⟨3, 1, 1, 1, 1, []⟩,
        ⟨4, 1, 1, 1, 1, []⟩, ⟨5, 1, 1, 1, 1, []⟩],
       [⟨1, 1, 2025, 100, false, 0⟩], [], ⟨2025, 1000⟩⟩ : DBState).plots.length ≤ 5) ∧
    (delete_plot (⟨[], [⟨1, 1, 1, 1, 1, []⟩, ⟨2, 1, 1, 1, 1, []⟩, ⟨3, 1, 1, 1, 1, []⟩,
        ⟨4, 1, 1, 1, 1, []⟩, ⟨5, 1, 1, 1, 1, []⟩],
       [⟨1, 1, 2025, 100, false, 0⟩], [], ⟨2025, 1000⟩⟩ : DBState) 1).1.2
      = "Сюжет используется в спектаклях и не может быть удален" ∧
    ¬ (delete_plot (⟨[], [⟨1, 1, 1, 1, 1, []⟩, ⟨2, 1, 1, 1, 1, []⟩, ⟨3, 1, 1, 1, 1, []⟩,
        ⟨4, 1, 1, 1, 1, []⟩, ⟨5, 1, 1, 1, 1, []⟩],
       [⟨1, 1, 2025, 100, false, 0⟩], [], ⟨2025, 1000⟩⟩ : DBState) 1).1.2
      = "Минимальное число сюжетов - 5" := by
  refine ⟨by decide, rfl, by decide⟩

/-- C10 (amended): deleting an unreferenced plot from a database with at most
five plots fails with the "minimum number of plots" message and changes
nothing; and whenever a deletion succeeds, at least five plots remain (so the
invariant of the claim holds). -/
theorem c10_minimum_plots (st : DBState) (pid : ℕ)
    (hpk : st.plots.countP (fun p => p.plot_id == pid) ≤ 1) :
    (st.plots.length ≤ 5 → (∀ p ∈ st.performances, p.plot_id ≠ pid) →
      delete_plot st pid = ((false, "Минимальное число сюжетов - 5"), st)) ∧
    ((delete_plot st pid).1.1 = true → 5 ≤ (delete_plot st pid).2.plots.length) := by
  constructor
  · intro hle hunref
    unfold delete_plot
    rw [if_neg, if_pos hle]
    simp only [not_lt, Nat.le_zero, List.length_eq_zero, List.filter_eq_nil_iff]
    intro p hp
    simp [hunref p hp]
  · intro hsucc
    unfold delete_plot at hsucc ⊢
    by_cases h1 : 0 < (st.performances.filter (fun p => p.plot_id == pid)).length
    · rw [if_pos h1] at hsucc
      simp at hsucc
    · rw [if_neg h1] at hsucc ⊢
      by_cases h2 : st.plots.length ≤ 5
      · rw [if_pos h2] at hsucc
        simp at hsucc
      · rw [if_neg h2] at hsucc ⊢
        have hlen : (st.plots.filter (fun p => !(p.plot_id == pid))).length
            = st.plots.length - st.plots.countP (fun p => p.plot_id == pid) := by
          rw [← List.countP_eq_length_filter]
          have hsplit := List.length_eq_countP_add_countP
            (fun p : Plot => p.plot_id == pid) st.plots
          have hnot : st.plots.countP (fun p => !(p.plot_id == pid))
              = st.plots.countP (fun p => decide ¬ (p.plot_id == pid) = true) := by
            apply List.countP_congr
            intro p _
            simp
          omega
        simp only []
        rw [hlen]
        omega

/-- C5: with positive profit the cast is ranked by the stable descending
`(rank index, experience, awards)` order, the three best rows each gain
exactly one award point (their ids are distinct because a cast has at most
one row per actor), and the single top row's actor is promoted one step,
capped at the highest rank, exactly when the profit exceeds 30% of the total
expenses; with non-positive profit neither awards nor promotions happen. -/
theorem c5_awards_and_promotion (st : DBState) (pid : ℕ) (d : Draws)
    (perf : Performance) (plot : Plot)
    (hperf : st.performances.find? (fun p => p.performance_id == pid) = some perf)
    (hnc : perf.is_completed = false)
    (hplot : st.plots.find? (fun p => p.plot_id == perf.plot_id) = some plot)
    (hnodup : (st.actors.map (fun a => a.actor_id)).Nodup) :
    ∃ res st2, calculate_performance_result st pid d = some (.ok res, st2) ∧
      (sorted_cast (get_actors_in_performance st pid)).Perm (get_actors_in_performance st pid) ∧
      List.Sorted castDesc (sorted_cast (get_actors_in_performance st pid)) ∧
      res.awarded_actors
        = (if 0 < res.profit then (sorted_cast (get_actors_in_performance st pid)).take 3 else []) ∧
      st2.actors.length = st.actors.length ∧
      (∀ k (hk : k < st.actors.length) (hk2 : k < st2.actors.length),
        (st2.actors.get ⟨k, hk2⟩).actor_id = (st.actors.get ⟨k, hk⟩).actor_id ∧
        (st2.actors.get ⟨k, hk2⟩).awards_count
          = (st.actors.get ⟨k, hk⟩).awards_count
            + (if 0 < res.profit
               then ((sorted_cast (get_actors_in_performance st pid)).take 3).countP
                 (fun r => r.actor_id == (st.actors.get ⟨k, hk⟩).actor_id)
               else 0)) ∧
      (((get_actors_in_performance st pid).map (fun a => a.actor_id)).Nodup →
        ∀ row ∈ (sorted_cast (get_actors_in_performance st pid)).take 3,
          ((sorted_cast (get_actors_in_performance st pid)).take 3).countP (fun r => r.actor_id == row.actor_id) = 1) ∧
      (∀ top rest, sorted_cast (get_actors_in_performance st pid) = top :: rest → 0 < res.profit →
        res.budget * (3/10) < res.profit →
        ∀ k (hk : k < st.actors.length) (hk2 : k < st2.actors.length),
          (st2.actors.get ⟨k, hk2⟩).rank
            = (if (st.actors.get ⟨k, hk⟩).actor_id = top.actor_id
               then pyNextRank ((st.actors.get ⟨k, hk⟩).rank)
               else (st.actors.get ⟨k, hk⟩).rank)) ∧
      (sorted_cast (get_actors_in_performance st pid) = [] →
        ∀ k (hk : k < st.actors.length) (hk2 : k < st2.actors.length),
          (st2.actors.get ⟨k, hk2⟩).rank = (st.actors.get ⟨k, hk⟩).rank) ∧
      (¬ (0 < res.profit ∧ res.budget * (3/10) < res.profit) →
        ∀ k (hk : k < st.actors.length) (hk2 : k < st2.actors.length),
          (st2.actors.get ⟨k, hk2⟩).rank = (st.actors.get ⟨k, hk⟩).rank) := by
  refine ⟨(settle st pid perf plot d).1, (settle st pid perf plot d).2,
    calculate_performance_result_success st pid d perf plot hperf hnc hplot,
    sorted_cast_perm _, sorted_cast_sorted _, ?_,
    settle_snd_actors_length st pid perf plot d, ?_, ?_, ?_, ?_, ?_⟩
  · rw [settle_awarded, settle_profit]
  · intro k hk hk2
    have h := map_get_eq (settle_actors_idawards st pid perf plot d) k hk2 hk
    refine ⟨congrArg Prod.fst h, ?_⟩
    rw [settle_profit]
    exact congrArg Prod.snd h
  · intro hcnd row hrow
    exact countP_own_id _ (take3_ids_nodup _ hcnd) row hrow
  · intro top rest hs hp hc k hk hk2
    rw [settle_profit] at hp
    rw [settle_budget, settle_profit] at hc
    have h := map_get_eq
      (settle_actors_idrank_of_promo st pid perf plot d hnodup top rest hs hp hc) k hk2 hk
    exact congrArg Prod.snd h
  · intro hs k hk hk2
    have h := map_get_eq (settle_actors_idrank_of_empty st pid perf plot d hs) k hk2 hk
    exact congrArg Prod.snd h
  · intro hn k hk hk2
    rw [settle_profit, settle_budget] at hn
    have h := map_get_eq (settle_actors_idrank_of_no_promo st pid perf plot d hn) k hk2 hk
    exact congrArg Prod.snd h

/-! ### Witnesses: each claim theorem applied at a concrete database -/

theorem c1_witness :
    calculate_performance_result exState 7 exDraws
      = some (.error "Спектакль не найден или уже завершен", exState) := by
  apply c1_settle_precondition_noop
  intro p hp
  rw [show exState.performances.find? (fun q => q.performance_id == 7) = none from rfl] at hp
  exact Option.noConfusion hp

theorem c2_witness :
    exPerf.is_completed = false ∧
    (∃ res st2, calculate_performance_result exState 1 exDraws = some (.ok res, st2) ∧
      0 ≤ res.saved_budget ∧ 0 ≤ res.unexpected_expenses) := by
  refine ⟨rfl, ?_⟩
  obtain ⟨res, st2, h1, _, _, _, _, h6, _, _, h9, _⟩ :=
    c2_settlement_cost_components exState 1 exDraws exPerf exPlot rfl rfl rfl
      ⟨by norm_num [exDraws], by norm_num [exDraws]⟩ (by norm_num [exPerf])
      (by norm_num [exPlot]) (by decide)
  exact ⟨res, st2, h1, h6, h9⟩

theorem c3_witness :
    ∃ res st2, calculate_performance_result exState 1 exDraws = some (.ok res, st2) ∧
      res.revenue = ⌊(base_revenue exPerf exPlot (get_actors_in_performance exState 1)
          + actors_bonus (get_actors_in_performance exState 1))
        * random_factor (actors_match_requirements (get_actors_in_performance exState 1)
            exPlot.required_ranks) exDraws.u2 exDraws.u3⌋ := by
  obtain ⟨res, st2, h1, _, h3, _, _⟩ :=
    c3_revenue_formula_and_tiers exState 1 exDraws exPerf exPlot rfl rfl rfl
      ⟨by norm_num [exDraws], by norm_num [exDraws]⟩
      ⟨by norm_num [exDraws], by norm_num [exDraws]⟩
      (by norm_num [exPerf]) (by norm_num [exPlot]) (by norm_num [exPlot]) (by decide)
  exact ⟨res, st2, h1, h3⟩

theorem c4_witness :
    ∃ res st2, calculate_performance_result exState 1 exDraws = some (.ok res, st2) ∧
      st2.game.current_year = exState.game.current_year + 1 ∧
      st2.actors.length = exState.actors.length := by
  obtain ⟨res, st2, h1, _, _, _, h5, h6, _, _⟩ :=
    c4_settlement_state_updates exState 1 exDraws exPerf exPlot rfl rfl rfl
  exact ⟨res, st2, h1, h5, h6⟩

theorem c5_witness :
    (exState.actors.map (fun a => a.actor_id)).Nodup ∧
    (∃ res st2, calculate_performance_result exState 1 exDraws = some (.ok res, st2) ∧
      (sorted_cast (get_actors_in_performance exState 1)).Perm
        (get_actors_in_performance exState 1)) := by
  refine ⟨by decide, ?_⟩
  obtain ⟨res, st2, h1, h2, _⟩ :=
    c5_awards_and_promotion exState 1 exDraws exPerf exPlot rfl rfl rfl (by decide)
  exact ⟨res, st2, h1, h2⟩

theorem c6_witness :
    (∃ res st2, calculate_performance_result exState 1 exDraws = some (.ok res, st2)) ∧
    random_factor true (7/10) (1/2) = random_factor false (7/10) (1/2) := by
  obtain ⟨_, h2, h3⟩ := c6_soft_compliance exState 1 exDraws exPerf exPlot rfl rfl rfl
  exact ⟨h2, h3 (7/10) (1/2) (by norm_num)⟩

theorem c7_witness :
    (calculate_contract_cost ⟨1, .lead, 2, 3⟩).contract = 66000 ∧
    rankIndex ActorRank.lead < rankIndex ActorRank.master ∧
    (calculate_contract_cost ⟨1, .lead, 2, 3⟩).contract
      < (calculate_contract_cost ⟨1, .master, 2, 3⟩).contract := by
  refine ⟨?_, by decide,
    (c7_contract_cost.2.1 ⟨1, .lead, 2, 3⟩ ⟨1, .master, 2, 3⟩ (by decide) rfl rfl).1⟩
  norm_num [calculate_contract_cost, rankIndex]

theorem c8_witness :
    (0 ≤ exState.game.capital) ∧ ((0:ℚ) ≤ 1/2) ∧ ((1:ℚ)/2 < 1) ∧
    (skip_year exState (1/2)).2.rights_sale
      = ⌊exState.game.capital * uniform (1/10) (1/5) (1/2)⌋ ∧
    (skip_year exState (1/2)).2.rights_sale = 150000 ∧
    (skip_year exState (1/2)).2.capital = 1150000 ∧
    (skip_year exState (1/2)).2.year = 2026 := by
  have h := c8_skip_year exState (1/2) (by norm_num [exState]) ⟨by norm_num, by norm_num⟩
  have hval : (skip_year exState (1/2)).2.rights_sale = 150000 := by
    rw [h.2.1]
    norm_num [exState, uniform]
  refine ⟨by norm_num [exState], by norm_num, by norm_num, h.2.1, hval, ?_, ?_⟩
  · show exState.game.capital + ((skip_year exState (1/2)).2.rights_sale : ℚ) = 1150000
    rw [hval]
    norm_num [exState]
  · rfl

theorem c9_witness :
    delete_plot exState 1
      = ((false, "Сюжет используется в спектаклях и не может быть удален"), exState) :=
  c9_delete_plot_in_use exState 1 ⟨exPerf, by simp [exState], rfl⟩

theorem c10_witness :
    (exStateNoPerf.plots.countP (fun p => p.plot_id == 1) ≤ 1) ∧
    delete_plot exStateNoPerf 1
      = ((false, "Минимальное число сюжетов - 5"), exStateNoPerf) := by
  refine ⟨by decide, (c10_minimum_plots exStateNoPerf 1 (by decide)).1 (by decide) ?_⟩
  intro p hp
  simp [exStateNoPerf] at hp

end TaskBD
